import Mathlib

/-!
Verification of the snake-game autoplay daemon (trifle-labs/skills).

Shallow embedding of the hex-grid geometry, the game-state parser, the
expected-value strategy and the daemon decision loop, translated from the
JavaScript sources:
  * game-state.mjs (hex helpers, `parseGameState`)
  * strategies/expected-value.mjs (both the simple-bid variant and the
    snake-game variant with `calculateBid`)
  * strategies/base.mjs (`shouldPlay`, `getOption`)
  * daemon/autoplay.mjs (`runAutoplay` loop body)

Conventions: JS numbers are modelled as ℚ (money, scores as ℤ where the
source only ever holds integers), axial coordinates as ℤ pairs, and JS
`undefined`-able fields as `Option`.  JS falsy-coalescing `x || d`
(which replaces both `undefined` and `0` by `d`) is modelled by `jsOr`;
nullish coalescing `x ?? d` by `Option.getD`.
-/

/-- JS `x || d` for numeric `x`: `undefined` and `0` both fall back to `d`. -/
def jsOrQ (x : Option ℚ) (d : ℚ) : ℚ :=
  match x with
  | none => d
  | some v => if v = 0 then d else v

/-- JS `x || d` for integer-valued fields. -/
def jsOrZ (x : Option ℤ) (d : ℤ) : ℤ :=
  match x with
  | none => d
  | some v => if v = 0 then d else v

/-- JS truthiness of a nullable string (`null`/`""` are falsy). -/
def strTruthy (x : Option String) : Bool :=
  match x with
  | none => false
  | some s => !s.isEmpty

/-- Axial hex coordinate `(q, r)`. -/
structure Coord where
  q : ℤ
  r : ℤ
deriving DecidableEq

/-- The six hex directions (`HEX_DIRECTIONS` keys, in source order). -/
inductive Dir where
  | n | ne | se | s | sw | nw
deriving DecidableEq

/-- `HEX_DIRECTIONS`: unit offset of each direction. -/
def Dir.offset : Dir → Coord
  | .n  => ⟨0, -1⟩
  | .ne => ⟨1, -1⟩
  | .se => ⟨1, 0⟩
  | .s  => ⟨0, 1⟩
  | .sw => ⟨-1, 1⟩
  | .nw => ⟨-1, 0⟩

/-- `OPPOSITE_DIRECTIONS`. -/
def Dir.opposite : Dir → Dir
  | .n  => .s
  | .s  => .n
  | .ne => .sw
  | .sw => .ne
  | .se => .nw
  | .nw => .se

/-- `ALL_DIRECTIONS` (= `Object.keys(HEX_DIRECTIONS)`, source order). -/
def allDirections : List Dir := [.n, .ne, .se, .s, .sw, .nw]

/-- `isInBounds(q, r, radius)`. -/
def isInBounds (q r radius : ℤ) : Bool :=
  decide (q.natAbs ≤ radius) && decide (r.natAbs ≤ radius) &&
    decide ((q + r).natAbs ≤ radius)

/-- `isOnSnakeBody(q, r, snakeBody)`. -/
def isOnSnakeBody (q r : ℤ) (snakeBody : List Coord) : Bool :=
  snakeBody.any (fun seg => seg.q == q && seg.r == r)

/-- `hexDistance(a, b)` = `max(|dq|, |dr|, |dq + dr|)`. -/
def hexDistance (a b : Coord) : ℕ :=
  max (max (a.q - b.q).natAbs (a.r - b.r).natAbs) ((a.q - b.q) + (a.r - b.r)).natAbs

lemma hexDistance_comm (a b : Coord) : hexDistance a b = hexDistance b a := by
  unfold hexDistance
  omega

lemma hexDistance_self (a : Coord) : hexDistance a a = 0 := by
  unfold hexDistance
  omega

set_option maxHeartbeats 1000000 in
lemma hexDistance_triangle (a b c : Coord) :
    hexDistance a c ≤ hexDistance a b + hexDistance b c := by
  unfold hexDistance
  omega

lemma hexDistance_cube (a b : Coord) : (hexDistance a b : ℤ) =
    max (max |a.q - b.q| |a.r - b.r|) |(a.q - b.q) + (a.r - b.r)| := by
  unfold hexDistance
  simp only [Int.abs_eq_natAbs]
  omega

lemma isInBounds_iff (q r radius : ℤ) : isInBounds q r radius = true ↔
    |q| ≤ radius ∧ |r| ≤ radius ∧ |q + r| ≤ radius := by
  unfold isInBounds
  simp only [Bool.and_eq_true, decide_eq_true_eq, Int.abs_eq_natAbs]
  omega

lemma isInBounds_rot (q r radius : ℤ) :
    isInBounds q r radius = isInBounds (-q) (-r) radius := by
  unfold isInBounds
  have h1 : ((-q : ℤ)).natAbs = q.natAbs := by omega
  have h2 : ((-r : ℤ)).natAbs = r.natAbs := by omega
  have h3 : ((-q + -r : ℤ)).natAbs = (q + r).natAbs := by omega
  rw [h1, h2, h3]

/-- **C4** — `hexDistance` is symmetric, zero on the diagonal, satisfies the
triangle inequality and equals the cube-coordinate identity
`max(|Δq|, |Δr|, |Δq+Δr|)`; `isInBounds q r R` holds iff
`|q| ≤ R ∧ |r| ≤ R ∧ |q+r| ≤ R` and is invariant under the 180° rotation
`(q, r) ↦ (−q, −r)`. -/
theorem hexDistance_isInBounds_props :
    (∀ a b : Coord, hexDistance a b = hexDistance b a) ∧
    (∀ a : Coord, hexDistance a a = 0) ∧
    (∀ a b c : Coord, hexDistance a c ≤ hexDistance a b + hexDistance b c) ∧
    (∀ a b : Coord, (hexDistance a b : ℤ) =
      max (max |a.q - b.q| |a.r - b.r|) |(a.q - b.q) + (a.r - b.r)|) ∧
    (∀ q r radius : ℤ, isInBounds q r radius = true ↔
      |q| ≤ radius ∧ |r| ≤ radius ∧ |q + r| ≤ radius) ∧
    (∀ q r radius : ℤ, isInBounds q r radius = isInBounds (-q) (-r) radius) :=
  ⟨hexDistance_comm, hexDistance_self, hexDistance_triangle, hexDistance_cube,
    isInBounds_iff, isInBounds_rot⟩

/-! ## Raw snapshot and parser (`game-state.mjs`) -/

/-- The `error` field of a raw snapshot (`AUTH_MISSING`/`AUTH_EXPIRED`/other). -/
inductive RawError where
  | authMissing
  | authExpired
  | other
deriving DecidableEq

/-- `gs.snake`. -/
structure Snake where
  body : List Coord
  currentDirection : Option Dir
  currentWinningTeam : Option String
deriving DecidableEq

/-- An entry of `gs.votes` / `parsed.votes` (fields read by `calculateBid`). -/
structure ExistingVote where
  team : String
  amount : Option ℚ
  totalAmount : Option ℚ
deriving DecidableEq

/-- An entry of `gs.teams` (only `id` is read by the core). -/
structure RawTeam where
  id : String
deriving DecidableEq

/-- Raw game snapshot: the fields of the backend payload consumed by
`parseGameState`, `getValidDirections` and `countExits`.  Maps keyed by team
id are modelled as functions returning `Option`/lists. -/
structure RawGame where
  error : Option RawError
  gameActive : Bool
  round : ℤ
  prizePool : Option ℚ
  minBid : Option ℚ
  countdown : Option ℤ
  fruitsToWin : Option ℤ
  gridRadius : Option ℤ
  snake : Option Snake
  teams : List RawTeam
  fruitScores : String → Option ℤ
  teamPools : String → Option ℚ
  apples : String → List Coord
  votes : Dir → Option ExistingVote
  winner : Option String

/-- `getValidDirections(gameState)`.  The `[] => []` body case is unreachable
through `parseGameState` (which checks the head first); on an empty body the
source would fault reading `head.q`. -/
def getValidDirections (gs : RawGame) : List Dir :=
  match gs.snake with
  | none => []
  | some sn =>
    match sn.body with
    | [] => []
    | head :: rest =>
      allDirections.filter (fun dir =>
        isInBounds (head.q + dir.offset.q) (head.r + dir.offset.r)
          (jsOrZ gs.gridRadius 3) &&
        !isOnSnakeBody (head.q + dir.offset.q) (head.r + dir.offset.r) rest)

/-- `countExits(pos, gameState, excludeDir)`. -/
def countExits (pos : Coord) (gs : RawGame) (excludeDir : Option Dir) : ℕ :=
  let radius := jsOrZ gs.gridRadius 3
  let snakeBody := match gs.snake with | none => [] | some sn => sn.body
  (allDirections.filter (fun dir =>
    (match excludeDir with | some e => !(dir == e) | none => true) &&
    isInBounds (pos.q + dir.offset.q) (pos.r + dir.offset.r) radius &&
    !isOnSnakeBody (pos.q + dir.offset.q) (pos.r + dir.offset.r) snakeBody)).length

/-- Result of `findClosestFruit`. -/
structure ClosestFruit where
  fruit : Coord
  distance : ℕ
deriving DecidableEq

/-- `findClosestFruit(head, fruits, teamId)`: linear scan with strict `<`,
so ties keep the first fruit in backend order. -/
def findClosestFruit (head : Coord) (apples : String → List Coord)
    (teamId : String) : Option ClosestFruit :=
  match apples teamId with
  | [] => none
  | f :: rest =>
    some (rest.foldl (fun acc fr =>
      if hexDistance head fr < acc.distance then ⟨fr, hexDistance head fr⟩ else acc)
      ⟨f, hexDistance head f⟩)

/-- A parsed team: raw team plus `score`, `pool`, `closestFruit`. -/
structure TeamInfo where
  id : String
  score : ℤ
  pool : ℚ
  closestFruit : Option ClosestFruit
deriving DecidableEq

/-- `ParsedGameState`.  `extensions`, `inExtensionWindow` and `initialMinBid`
are read by the expected-value strategy but never produced by
`parseGameState` (JS `undefined`), hence `Option` with `none` from the
parser. -/
structure ParsedState where
  active : Bool
  round : ℤ
  prizePool : ℚ
  minBid : ℚ
  countdown : Option ℤ
  fruitsToWin : ℤ
  gridRadius : ℤ
  head : Coord
  snakeLength : ℕ
  currentDirection : Option Dir
  currentWinningTeam : Option String
  teams : List TeamInfo
  validDirections : List Dir
  votes : Dir → Option ExistingVote
  winner : Option String
  raw : RawGame
  extensions : Option ℤ
  inExtensionWindow : Option Bool
  initialMinBid : Option ℚ

/-- `parseGameState(gs)`. -/
def parseGameState (ogs : Option RawGame) : Option ParsedState :=
  match ogs with
  | none => none
  | some gs =>
    match gs.error with
    | some _ => none
    | none =>
      match gs.snake with
      | none => none
      | some sn =>
        match sn.body with
        | [] => none
        | head :: _ =>
          some {
            active := gs.gameActive
            round := gs.round
            prizePool := jsOrQ gs.prizePool 10
            minBid := jsOrQ gs.minBid 1
            countdown := gs.countdown
            fruitsToWin := jsOrZ gs.fruitsToWin 3
            gridRadius := jsOrZ gs.gridRadius 3
            head := head
            snakeLength := sn.body.length
            currentDirection := sn.currentDirection
            currentWinningTeam := sn.currentWinningTeam
            teams := gs.teams.map (fun t =>
              { id := t.id
                score := jsOrZ (gs.fruitScores t.id) 0
                pool := jsOrQ (gs.teamPools t.id) 0
                closestFruit := findClosestFruit head gs.apples t.id })
            validDirections := getValidDirections gs
            votes := gs.votes
            winner := gs.winner
            raw := gs
            extensions := none
            inExtensionWindow := none
            initialMinBid := none }

/-- `getTeamById(parsed, teamId)`. -/
def getTeamById (parsed : ParsedState) (teamId : String) : Option TeamInfo :=
  parsed.teams.find? (fun t => t.id == teamId)

/-! ## C2 and C5: valid directions, parser null contract -/

lemma isOnSnakeBody_eq_false_iff (q r : ℤ) (body : List Coord) :
    isOnSnakeBody q r body = false ↔ ∀ seg ∈ body, ¬(seg.q = q ∧ seg.r = r) := by
  unfold isOnSnakeBody
  simp [List.any_eq_true]

/-- **C2** — every direction returned by `getValidDirections` leads from the
head to a cell that is in bounds for the grid radius and does not overlap any
body segment other than the head; in particular the cell occupied by the
second body segment is never a valid target (no head-on self-reversal). -/
theorem getValidDirections_safe (gs : RawGame) (sn : Snake) (head : Coord)
    (rest : List Coord) (hsn : gs.snake = some sn) (hbody : sn.body = head :: rest) :
    ∀ d ∈ getValidDirections gs,
      isInBounds (head.q + d.offset.q) (head.r + d.offset.r)
        (jsOrZ gs.gridRadius 3) = true ∧
      (∀ seg ∈ rest,
        ¬(seg.q = head.q + d.offset.q ∧ seg.r = head.r + d.offset.r)) ∧
      (∀ second rest2, rest = second :: rest2 →
        ¬(second.q = head.q + d.offset.q ∧ second.r = head.r + d.offset.r)) := by
  intro d hd
  unfold getValidDirections at hd
  simp only [hsn, hbody] at hd
  rw [List.mem_filter] at hd
  obtain ⟨-, hcond⟩ := hd
  rw [Bool.and_eq_true, Bool.not_eq_true'] at hcond
  obtain ⟨hin, hbodyok⟩ := hcond
  rw [isOnSnakeBody_eq_false_iff] at hbodyok
  refine ⟨hin, hbodyok, ?_⟩
  intro second rest2 hr
  exact hbodyok second (by rw [hr]; exact List.mem_cons_self _ _)

/-- Concrete snapshot for the C2 witness: head at the centre, second body
segment directly north of it. -/
def c2Raw : RawGame :=
  { error := none
    gameActive := true
    round := 1
    prizePool := none
    minBid := none
    countdown := none
    fruitsToWin := none
    gridRadius := none
    snake := some { body := [⟨0, 0⟩, ⟨0, -1⟩], currentDirection := none,
                    currentWinningTeam := none }
    teams := []
    fruitScores := fun _ => none
    teamPools := fun _ => none
    apples := fun _ => []
    votes := fun _ => none
    winner := none }

/-- Witness for C2 at a concrete snapshot: `se` is among the valid
directions, and the theorem yields its safety facts; moreover the direction
`n`, whose target is the second segment, is not valid. -/
theorem getValidDirections_safe_witness :
    (Dir.se ∈ getValidDirections c2Raw ∧
      isInBounds ((0:ℤ) + Dir.se.offset.q) ((0:ℤ) + Dir.se.offset.r)
        (jsOrZ c2Raw.gridRadius 3) = true) ∧
    Dir.n ∉ getValidDirections c2Raw := by
  refine ⟨⟨by decide, ?_⟩, by decide⟩
  exact (getValidDirections_safe c2Raw _ ⟨0, 0⟩ [⟨0, -1⟩] rfl rfl Dir.se
    (by decide)).1

/-- Head cell of a raw snapshot (`gs.snake?.body?.[0]`). -/
def rawHead (gs : RawGame) : Option Coord :=
  match gs.snake with
  | none => none
  | some sn => sn.body.head?

/-- Concrete inactive snapshot with a head and a winner: the end-of-game
payload the daemon relies on. -/
def c5Raw : RawGame :=
  { error := none
    gameActive := false
    round := 7
    prizePool := none
    minBid := none
    countdown := none
    fruitsToWin := none
    gridRadius := none
    snake := some { body := [⟨0, 0⟩], currentDirection := none,
                    currentWinningTeam := none }
    teams := []
    fruitScores := fun _ => none
    teamPools := fun _ => none
    apples := fun _ => []
    votes := fun _ => none
    winner := some "red" }

/-- **C5 counterexample** — an inactive snapshot with a head parses to a
non-null state, refuting "for every raw snapshot that is inactive … the
result is null". -/
theorem parseGameState_inactive_not_null :
    c5Raw.gameActive = false ∧ (parseGameState (some c5Raw)).isSome = true :=
  ⟨rfl, rfl⟩

/-- **C5 (amended)** — `parseGameState` returns null exactly when the
snapshot is absent, carries an `error` field, or lacks a head position;
inactive snapshots with a head (e.g. the post-game payload with a `winner`)
parse to a non-null state whose `active` flag is `false`. -/
theorem parseGameState_none_iff :
    parseGameState none = none ∧
    (∀ gs : RawGame,
      (parseGameState (some gs) = none ↔ gs.error.isSome ∨ rawHead gs = none)) ∧
    (∀ gs parsed, parseGameState (some gs) = some parsed →
      parsed.active = gs.gameActive) := by
  refine ⟨rfl, ?_, ?_⟩
  · intro gs
    simp only [parseGameState, rawHead]
    cases h : gs.error with
    | some e => simp
    | none =>
      cases hsn : gs.snake with
      | none => simp
      | some sn =>
        cases hb : sn.body with
        | nil => simp [hb]
        | cons head rest => simp [hb]
  · intro gs parsed hp
    simp only [parseGameState] at hp
    cases h : gs.error with
    | some e => simp [h] at hp
    | none =>
      cases hsn : gs.snake with
      | none => simp [h, hsn] at hp
      | some sn =>
        cases hb : sn.body with
        | nil => simp [h, hsn, hb] at hp
        | cons head rest =>
          simp only [h, hsn, hb, Option.some.injEq] at hp
          rw [← hp]

/-! ## Strategy layer (`strategies/base.mjs`, `strategies/expected-value.mjs`) -/

/-- The strategy-visible slice of daemon state (`{...state, currentTeam,
roundSpend, roundVoteCount, roundBudgetRemaining}`). -/
structure StratState where
  currentTeam : Option String
  roundSpend : ℚ
  roundVoteCount : ℕ
  roundBudgetRemaining : Option ℚ
deriving DecidableEq

/-- A `VoteAction` value object `{direction, team, amount, reason}`. -/
structure VoteAction where
  direction : Dir
  team : TeamInfo
  amount : ℚ
  reason : String
deriving DecidableEq

/-- Result of `computeVote`: JS `null`, `{skip: true, reason}`, or a vote. -/
inductive VoteResult where
  | null
  | skip (reason : String)
  | vote (v : VoteAction)
deriving DecidableEq

/-- `BaseStrategy.shouldPlay(parsed, balance, state)`. -/
def shouldPlay (parsed : ParsedState) (balance : ℚ) : Bool :=
  if !parsed.active then false
  else if parsed.validDirections.isEmpty then false
  else if balance < parsed.minBid then false
  else true

/-- Options of the expected-value strategy read through `getOption`
(`maxCounterExtensions`, default `1`). -/
structure EVOptions where
  maxCounterExtensions : Option ℤ
deriving DecidableEq

/-- JS `x > m` when `x` may be `undefined` (`undefined > m` is `false`). -/
def jsUndefGT (x : Option ℤ) (m : ℤ) : Bool :=
  match x with
  | none => false
  | some e => decide (m < e)

/-- `estimateWinProb(team, parsed)`: discrete lookup keyed by
`(fruitsNeeded, distanceToClosestFruit)`. -/
def estimateWinProb (team : TeamInfo) (parsed : ParsedState) : ℚ :=
  let fruitsNeeded : ℤ := parsed.fruitsToWin - team.score
  let fruitDist : ℕ := match team.closestFruit with | some cf => cf.distance | none => 10
  if team.closestFruit.isNone then 0
  else if fruitsNeeded ≤ 0 then 0
  else if fruitsNeeded = 1 ∧ fruitDist ≤ 1 then 0.9
  else if fruitsNeeded = 1 ∧ fruitDist ≤ 2 then 0.7
  else if fruitsNeeded = 1 then 0.5
  else if fruitsNeeded = 2 ∧ fruitDist ≤ 2 then 0.4
  else if fruitsNeeded = 2 then 0.25
  else if fruitsNeeded = 3 then 0.15
  else 0.1

/-- `calculateExpectedValue(team, parsed, isCurrentTeam)` of the simple-bid
variant: estimated team votes `max(pool / (initialMinBid || 1), 1)`, own
share `1 / (votes + (isCurrentTeam ? 0 : 1))`, EV `winProb × prizePool ×
share`.  (`team.pool || 0` is the identity on our ℚ `pool` field.) -/
def calculateExpectedValue (team : TeamInfo) (parsed : ParsedState)
    (isCurrentTeam : Bool) : ℚ :=
  let winProb := estimateWinProb team parsed
  let pool := team.pool
  let prizePool := parsed.prizePool
  let estimatedTeamVotes := max (pool / jsOrQ parsed.initialMinBid 1) 1
  let ourShare := 1 / (estimatedTeamVotes + (if isCurrentTeam then 0 else 1))
  let payoutIfWin := prizePool * ourShare
  winProb * payoutIfWin

/-- A `teamStats` entry of `analyzeTeams`. -/
structure TeamStat where
  team : TeamInfo
  ev : ℚ
  isCurrentTeam : Bool
deriving DecidableEq

/-- Result of `analyzeTeams`.  The source's reason strings interpolate
numeric details; only their constant prefixes are kept here. -/
structure Analysis where
  shouldPlay : Bool
  recommendedTeam : Option TeamInfo
  reason : String
  teamEV : ℚ
deriving DecidableEq

/-- The `teamStats` array: teams with a fruit, each with its EV. -/
def teamStatsFor (parsed : ParsedState) (currentTeamId : Option String) :
    List TeamStat :=
  (parsed.teams.filter (fun t => t.closestFruit.isSome)).map (fun t =>
    let isCur := currentTeamId == some t.id
    { team := t, ev := calculateExpectedValue t parsed isCur, isCurrentTeam := isCur })

/-- Stable descending sort by `ev` (JS stable `sort((a,b) => b.ev - a.ev)`). -/
def sortByEVDesc (l : List TeamStat) : List TeamStat :=
  l.mergeSort (fun a b => decide (b.ev ≤ a.ev))

/-- Closest-fruit distance with the `?? 100` default of the score comparator. -/
def cfDist100 (t : TeamInfo) : ℕ :=
  match t.closestFruit with
  | some cf => cf.distance
  | none => 100

/-- Stable sort by score descending, ties by closest-fruit distance
ascending (the `bestByScore` comparator). -/
def sortByScoreDesc (l : List TeamStat) : List TeamStat :=
  l.mergeSort (fun a b =>
    if a.team.score = b.team.score then decide (cfDist100 a.team ≤ cfDist100 b.team)
    else decide (b.team.score ≤ a.team.score))

/-- `teamStats.find(t => t.team.id === currentTeamId)` (run on the
EV-sorted array, as in the source). -/
def findCurrentStat (sorted : List TeamStat) (currentTeamId : Option String) :
    Option TeamStat :=
  sorted.find? (fun t => currentTeamId == some t.team.id)

/-- `analyzeTeams(parsed, currentTeamId)` of the simple-bid variant.  The
source checks `teamStats.length === 0` before sorting; sorting preserves
emptiness, so the `[]` branch below is that check.  `headD` in the joining
branch is only evaluated on a non-empty list. -/
def analyzeTeams (parsed : ParsedState) (currentTeamId : Option String) :
    Analysis :=
  let teamStats := teamStatsFor parsed currentTeamId
  match sortByEVDesc teamStats with
  | [] =>
    { shouldPlay := false, recommendedTeam := none,
      reason := "no_teams_with_fruits", teamEV := 0 }
  | best :: restSorted =>
    let sorted := best :: restSorted
    if !(strTruthy currentTeamId) then
      let bestByScore := (sortByScoreDesc sorted).headD best
      { shouldPlay := true, recommendedTeam := some bestByScore.team,
        reason := "joining", teamEV := bestByScore.ev }
    else
      match findCurrentStat sorted currentTeamId with
      | some currentTeam =>
        let currentFruitsNeeded := parsed.fruitsToWin - currentTeam.team.score
        if 0 < currentFruitsNeeded ∧ currentTeam.team.closestFruit.isSome then
          { shouldPlay := true, recommendedTeam := some currentTeam.team,
            reason := "loyal", teamEV := currentTeam.ev }
        else if currentTeam.team.closestFruit.isNone ∨ currentFruitsNeeded ≤ 0 then
          { shouldPlay := true, recommendedTeam := some best.team,
            reason := "switching (current team blocked)", teamEV := best.ev }
        else
          { shouldPlay := true, recommendedTeam := some best.team,
            reason := "best_available", teamEV := best.ev }
      | none =>
        { shouldPlay := true, recommendedTeam := some best.team,
          reason := "best_available", teamEV := best.ev }

/-- `scoreDirection(dir, parsed, targetFruit)` of the simple-bid variant. -/
def scoreDirection (dir : Dir) (parsed : ParsedState)
    (targetFruit : Option Coord) : ℚ :=
  let newPos : Coord := ⟨parsed.head.q + dir.offset.q, parsed.head.r + dir.offset.r⟩
  let fruitScore : ℚ :=
    match targetFruit with
    | some tf =>
      let dist := hexDistance newPos tf
      if dist = 0 then 1000 else ((10 : ℚ) - dist) ^ 2 * 3
    | none => 0
  let exits := countExits newPos parsed.raw (some dir.opposite)
  let distFromCenter := hexDistance newPos ⟨0, 0⟩
  fruitScore + exits * 5 + ((parsed.gridRadius : ℚ) - distFromCenter)

/-- A `dirScores` entry of `computeVote`. -/
structure DirScore where
  dir : Dir
  score : ℚ
deriving DecidableEq

/-- `computeVote(parsed, balance, state)` of the simple-bid variant: gate on
`shouldPlay`, analyze teams, score valid directions, always bid
`parsed.minBid`.  When `analysis.shouldPlay` is true the source's
`recommendedTeam` is always non-null; the `none` fallback mirrors the JS
crash-free path and is unreachable. -/
def computeVote (parsed : ParsedState) (balance : ℚ) (state : StratState) :
    VoteResult :=
  if !(shouldPlay parsed balance) then .null
  else
    let analysis := analyzeTeams parsed state.currentTeam
    if !analysis.shouldPlay then .skip analysis.reason
    else
      match analysis.recommendedTeam with
      | none => .skip analysis.reason
      | some targetTeam =>
        let targetFruit := targetTeam.closestFruit.map (fun cf => cf.fruit)
        let dirScores :=
          (parsed.validDirections.map
            (fun d => ({ dir := d, score := scoreDirection d parsed targetFruit } : DirScore))).mergeSort
            (fun a b => decide (b.score ≤ a.score))
        match dirScores.head? with
        | none => .null
        | some bestEntry =>
          .vote { direction := bestEntry.dir, team := targetTeam,
                  amount := parsed.minBid, reason := analysis.reason }

/-- The ROI tail of `shouldCounterBid` (the code after its three guard
returns): effective cost, rough payout per vote, expected-return test. -/
def counterBidROI (parsed : ParsedState) (state : StratState)
    (ourVote : VoteAction) : Option VoteAction :=
  let effectiveCost := if parsed.inExtensionWindow.getD false then parsed.minBid * 2 else parsed.minBid
  let teamVoteCount := state.roundVoteCount + 1
  let payoutPerVote := parsed.prizePool / ((max (teamVoteCount * 2) 1 : ℕ) : ℚ)
  let winProb := estimateWinProb ourVote.team parsed
  let expectedReturn := winProb * payoutPerVote
  if decide (expectedReturn < effectiveCost * 0.5) then none
  else
    some { direction := ourVote.direction, team := ourVote.team,
           amount := parsed.minBid, reason := "counter" }

/-- `shouldCounterBid(parsed, balance, state, ourVote)` of the simple-bid
variant.  `parsed.extensions`/`inExtensionWindow`/`initialMinBid` are
`undefined` from this repo's parser; JS `undefined > max` is false and
`undefined ? a : b` picks `b`, captured by the `Option` defaults. -/
def shouldCounterBid (opts : EVOptions) (parsed : ParsedState) (balance : ℚ)
    (state : StratState) (ourVote : VoteAction) : Option VoteAction :=
  if jsUndefGT parsed.extensions (opts.maxCounterExtensions.getD 1) then none
  else if decide (balance * 0.1 < parsed.minBid) then none
  else if decide (state.roundBudgetRemaining.getD 0 < parsed.minBid) then none
  else counterBidROI parsed state ourVote

/-- `calculateBid(parsed, balance, direction, team)` of the snake-game
variant: outbid only an existing opposing vote, within balance headroom. -/
def calculateBid (parsed : ParsedState) (balance : ℚ) (direction : Dir)
    (team : TeamInfo) : ℚ :=
  let minBid := parsed.minBid
  match parsed.votes direction with
  | none => minBid
  | some existingVote =>
    let currentAmount := jsOrQ existingVote.amount (jsOrQ existingVote.totalAmount 0)
    if existingVote.team ≠ team.id ∧ minBid ≤ currentAmount then
      if currentAmount + 1 < balance then
        min (currentAmount + 1) ((⌊balance / 2⌋ : ℤ) : ℚ)
      else minBid
    else minBid

/-! ## C10, C7: bid amounts and counter-bid faithfulness -/

lemma counterBidROI_cases (parsed : ParsedState) (state : StratState)
    (ourVote : VoteAction) :
    counterBidROI parsed state ourVote = none ∨
      counterBidROI parsed state ourVote =
        some { direction := ourVote.direction, team := ourVote.team,
               amount := parsed.minBid, reason := "counter" } := by
  unfold counterBidROI
  dsimp only
  repeat' split
  all_goals
    first
      | exact Or.inl rfl
      | exact Or.inr rfl

lemma counterBidROI_some (parsed : ParsedState) (state : StratState)
    (ourVote : VoteAction) (v : VoteAction)
    (h : counterBidROI parsed state ourVote = some v) :
    v = { direction := ourVote.direction, team := ourVote.team,
          amount := parsed.minBid, reason := "counter" } := by
  rcases counterBidROI_cases parsed state ourVote with hc | hc
  · rw [hc] at h
    exact Option.noConfusion h
  · rw [hc] at h
    exact (Option.some.injEq _ _ ▸ h).symm

/-- **C10** — every non-null result of `shouldCounterBid` repeats the
original vote: same direction, same team, amount exactly the current
`minBid`. -/
theorem shouldCounterBid_repeats_vote (opts : EVOptions) (parsed : ParsedState)
    (balance : ℚ) (state : StratState) (ourVote : VoteAction) (v : VoteAction)
    (h : shouldCounterBid opts parsed balance state ourVote = some v) :
    v.direction = ourVote.direction ∧ v.team = ourVote.team ∧
      v.amount = parsed.minBid := by
  unfold shouldCounterBid at h
  split at h
  · exact Option.noConfusion h
  · split at h
    · exact Option.noConfusion h
    · split at h
      · exact Option.noConfusion h
      · rw [counterBidROI_some parsed state ourVote v h]
        exact ⟨rfl, rfl, rfl⟩

/-- Options with `maxCounterExtensions` unset (the daemon default). -/
def exOpts : EVOptions := { maxCounterExtensions := none }

/-- A raw snapshot placeholder carried in concrete parsed states (only read
through `countExits` in direction scoring). -/
def exRawEmpty : RawGame :=
  { error := none, gameActive := true, round := 1, prizePool := none,
    minBid := none, countdown := none, fruitsToWin := none, gridRadius := none,
    snake := some { body := [⟨0, 0⟩], currentDirection := none,
                    currentWinningTeam := none },
    teams := [], fruitScores := fun _ => none, teamPools := fun _ => none,
    apples := fun _ => [], votes := fun _ => none, winner := none }

/-- Team one fruit away at distance 1 (win probability 0.9). -/
def exTeamA : TeamInfo :=
  { id := "a", score := 2, pool := 4, closestFruit := some ⟨⟨0, -1⟩, 1⟩ }

/-- Concrete parsed state for counter-bid witnesses. -/
def exParsedCB : ParsedState :=
  { active := true, round := 3, prizePool := 10, minBid := 1, countdown := none,
    fruitsToWin := 3, gridRadius := 3, head := ⟨0, 0⟩, snakeLength := 1,
    currentDirection := some .s, currentWinningTeam := none, teams := [exTeamA],
    validDirections := [.n], votes := fun _ => none, winner := none,
    raw := exRawEmpty, extensions := none, inExtensionWindow := none,
    initialMinBid := none }

/-- The original vote being countered in the witnesses. -/
def exOurVote : VoteAction :=
  { direction := .n, team := exTeamA, amount := 1, reason := "r" }

/-- The counter-vote produced on the witness inputs. -/
def exCounterVote : VoteAction :=
  { direction := .n, team := exTeamA, amount := 1, reason := "counter" }

/-- Witness state: plenty of round budget remaining. -/
def exStateCB : StratState :=
  { currentTeam := some "a", roundSpend := 1, roundVoteCount := 1,
    roundBudgetRemaining := some 5 }

lemma shouldCounterBid_ex_eval :
    shouldCounterBid exOpts exParsedCB 100 exStateCB exOurVote =
      some exCounterVote := by
  norm_num [shouldCounterBid, counterBidROI, jsUndefGT, estimateWinProb,
    exOpts, exParsedCB, exStateCB, exOurVote, exCounterVote, exTeamA]

/-- Witness for C10 at the concrete counter-bid above. -/
theorem shouldCounterBid_repeats_vote_witness :
    exCounterVote.direction = exOurVote.direction ∧
      exCounterVote.team = exOurVote.team ∧
      exCounterVote.amount = exParsedCB.minBid :=
  shouldCounterBid_repeats_vote exOpts exParsedCB 100 exStateCB exOurVote
    exCounterVote shouldCounterBid_ex_eval

/-- `currentAmount` of an existing vote (`existingVote.amount ||
existingVote.totalAmount || 0`). -/
def currentAmountOf (ev : ExistingVote) : ℚ :=
  jsOrQ ev.amount (jsOrQ ev.totalAmount 0)

/-- **C7** — (i) in simple-bid mode every non-skip vote computed by the
expected-value strategy bids exactly the current `minBid`; (ii) the
snake-game variant's `calculateBid` departs from `minBid` only when an
existing vote of a different team already claims the direction with at
least `minBid` and the balance exceeds that amount plus one. -/
theorem computeVote_bids_minimum :
    (∀ (parsed : ParsedState) (balance : ℚ) (state : StratState) (v : VoteAction),
      computeVote parsed balance state = .vote v → v.amount = parsed.minBid) ∧
    (∀ (parsed : ParsedState) (balance : ℚ) (direction : Dir) (team : TeamInfo),
      calculateBid parsed balance direction team ≠ parsed.minBid →
      ∃ ev, parsed.votes direction = some ev ∧ ev.team ≠ team.id ∧
        parsed.minBid ≤ currentAmountOf ev ∧ currentAmountOf ev + 1 < balance) := by
  constructor
  · intro parsed balance state v h
    unfold computeVote at h
    dsimp only at h
    repeat' split at h
    all_goals
      first
        | exact VoteResult.noConfusion h
        | (cases h; rfl)
  · intro parsed balance direction team h
    unfold calculateBid at h
    dsimp only at h
    split at h
    · exact absurd rfl h
    case h_2 ev heq =>
      split at h
      case isTrue hcond =>
        split at h
        case isTrue hroom =>
          exact ⟨ev, heq, hcond.1, hcond.2, hroom⟩
        case isFalse => exact absurd rfl h
      case isFalse => exact absurd rfl h

/-- Unaligned strategy state for the C7 witness. -/
def exStateCV : StratState :=
  { currentTeam := none, roundSpend := 0, roundVoteCount := 0,
    roundBudgetRemaining := none }

/-- The vote computed on the C7 witness inputs. -/
def exVoteCV : VoteAction :=
  { direction := .n, team := exTeamA, amount := 1, reason := "joining" }

set_option maxHeartbeats 2000000 in
lemma computeVote_ex_eval : computeVote exParsedCB 20 exStateCV = .vote exVoteCV := by
  simp +decide [computeVote, shouldPlay, analyzeTeams, teamStatsFor,
    calculateExpectedValue, estimateWinProb, sortByEVDesc, sortByScoreDesc,
    findCurrentStat, strTruthy, scoreDirection, countExits, hexDistance,
    isInBounds, isOnSnakeBody, jsOrQ, jsOrZ, allDirections, Dir.offset,
    Dir.opposite, exParsedCB, exStateCV, exVoteCV, exTeamA, exRawEmpty,
    cfDist100, List.mergeSort]

/-- Parsed state with an opposing vote of 2 on `n` for the C7 witness. -/
def exParsedBid : ParsedState :=
  { exParsedCB with
      votes := fun d => match d with
        | .n => some { team := "b", amount := some 2, totalAmount := none }
        | _ => none }

/-- Witness for C7: the concrete computed vote bids the minimum, and a
concrete `calculateBid` departure from `minBid` exhibits the opposing-vote
conditions. -/
theorem computeVote_bids_minimum_witness :
    exVoteCV.amount = exParsedCB.minBid ∧
    (∃ ev, exParsedBid.votes Dir.n = some ev ∧ ev.team ≠ exTeamA.id ∧
      exParsedBid.minBid ≤ currentAmountOf ev ∧ currentAmountOf ev + 1 < 10) :=
  ⟨computeVote_bids_minimum.1 exParsedCB 20 exStateCV exVoteCV computeVote_ex_eval,
   computeVote_bids_minimum.2 exParsedBid 10 Dir.n exTeamA (by
     norm_num [calculateBid, currentAmountOf, jsOrQ, exParsedBid, exParsedCB,
       exTeamA]
     decide)⟩

/-! ## C8: expected value vs. pool size -/

/-- Parsed state for the C8 counterexample (parser leaves `initialMinBid`
unset, so the vote-count proxy divides by the fallback 1). -/
def c8Parsed : ParsedState :=
  { active := true, round := 1, prizePool := 10, minBid := 1, countdown := none,
    fruitsToWin := 3, gridRadius := 3, head := ⟨0, 0⟩, snakeLength := 1,
    currentDirection := none, currentWinningTeam := none, teams := [],
    validDirections := [.n], votes := fun _ => none, winner := none,
    raw := exRawEmpty, extensions := none, inExtensionWindow := none,
    initialMinBid := none }

/-- Team with pool 0 for the C8 counterexample. -/
def c8TeamX : TeamInfo :=
  { id := "x", score := 2, pool := 0, closestFruit := some ⟨⟨0, -1⟩, 1⟩ }

/-- Team with pool 1/2 (strictly larger) for the C8 counterexample. -/
def c8TeamY : TeamInfo :=
  { id := "y", score := 2, pool := 1/2, closestFruit := some ⟨⟨0, -1⟩, 1⟩ }

/-- **C8 counterexample** — two teams with identical (positive) estimated
win probability and strictly different pools get the *same* expected value,
because `max(pool / initialMinBid, 1)` clamps both vote-count estimates to
the floor 1: the payout-share estimate is not strictly decreasing in pool. -/
theorem calculateExpectedValue_not_strict_at_floor :
    c8TeamX.pool < c8TeamY.pool ∧
    estimateWinProb c8TeamX c8Parsed = estimateWinProb c8TeamY c8Parsed ∧
    0 < estimateWinProb c8TeamX c8Parsed ∧
    ¬ (calculateExpectedValue c8TeamY c8Parsed false <
        calculateExpectedValue c8TeamX c8Parsed false) := by
  refine ⟨by norm_num [c8TeamX, c8TeamY], ?_, ?_, ?_⟩
  · simp +decide [estimateWinProb, c8TeamX, c8TeamY, c8Parsed]
  · norm_num [estimateWinProb, c8TeamX, c8Parsed]
  · simp +decide [calculateExpectedValue, estimateWinProb, jsOrQ,
      c8TeamX, c8TeamY, c8Parsed]
    rw [show ((2 : ℚ)⁻¹ ⊔ 1) = 1 from max_eq_right (by norm_num)]

/-- **C8 (amended)** — the strict preference holds away from the clamp:
if both teams have the same positive estimated win probability, the prize
pool is positive, `initialMinBid || 1` is positive, and the smaller pool is
at least `initialMinBid || 1` (so neither vote-count estimate is clamped at
the floor 1), then the team with the strictly smaller pool has strictly
greater expected value for an unaligned agent. -/
theorem calculateExpectedValue_pool_antitone
    (parsed : ParsedState) (tX tY : TeamInfo)
    (hwp : estimateWinProb tX parsed = estimateWinProb tY parsed)
    (hwpos : 0 < estimateWinProb tX parsed)
    (hpp : 0 < parsed.prizePool)
    (hm : 0 < jsOrQ parsed.initialMinBid 1)
    (hfloor : jsOrQ parsed.initialMinBid 1 ≤ tX.pool)
    (hlt : tX.pool < tY.pool) :
    calculateExpectedValue tY parsed false <
      calculateExpectedValue tX parsed false := by
  unfold calculateExpectedValue
  rw [← hwp]
  dsimp only
  rw [if_neg (by simp)]
  have hx : max (tX.pool / jsOrQ parsed.initialMinBid 1) 1 =
      tX.pool / jsOrQ parsed.initialMinBid 1 :=
    max_eq_left ((one_le_div hm).mpr hfloor)
  have hy : max (tY.pool / jsOrQ parsed.initialMinBid 1) 1 =
      tY.pool / jsOrQ parsed.initialMinBid 1 :=
    max_eq_left ((one_le_div hm).mpr (hfloor.trans hlt.le))
  rw [hx, hy]
  have hpx : (0 : ℚ) < tX.pool / jsOrQ parsed.initialMinBid 1 :=
    div_pos (hm.trans_le hfloor) hm
  have hdiv : tX.pool / jsOrQ parsed.initialMinBid 1 <
      tY.pool / jsOrQ parsed.initialMinBid 1 :=
    (div_lt_div_iff_of_pos_right hm).mpr hlt
  have hshare : 1 / (tY.pool / jsOrQ parsed.initialMinBid 1 + 1) <
      1 / (tX.pool / jsOrQ parsed.initialMinBid 1 + 1) := by
    apply one_div_lt_one_div_of_lt
    · linarith
    · linarith
  have hp1 : 0 < 1 / (tY.pool / jsOrQ parsed.initialMinBid 1 + 1) := by
    apply div_pos one_pos
    have : (0 : ℚ) < tY.pool / jsOrQ parsed.initialMinBid 1 := by linarith
    linarith
  calc estimateWinProb tX parsed *
        (parsed.prizePool * (1 / (tY.pool / jsOrQ parsed.initialMinBid 1 + 1)))
      < estimateWinProb tX parsed *
        (parsed.prizePool * (1 / (tX.pool / jsOrQ parsed.initialMinBid 1 + 1))) := by
        apply mul_lt_mul_of_pos_left _ hwpos
        exact mul_lt_mul_of_pos_left hshare hpp

/-- Parsed state for the C8 amended witness, with `initialMinBid` present. -/
def c8ParsedW : ParsedState :=
  { c8Parsed with initialMinBid := some 1 }

/-- Pool-1 team for the C8 amended witness. -/
def c8TeamX2 : TeamInfo :=
  { id := "x", score := 2, pool := 1, closestFruit := some ⟨⟨0, -1⟩, 1⟩ }

/-- Pool-2 team for the C8 amended witness. -/
def c8TeamY2 : TeamInfo :=
  { id := "y", score := 2, pool := 2, closestFruit := some ⟨⟨0, -1⟩, 1⟩ }

/-- Witness for the amended C8 at pools 1 < 2 with `initialMinBid = 1`. -/
theorem calculateExpectedValue_pool_antitone_witness :
    calculateExpectedValue c8TeamY2 c8ParsedW false <
      calculateExpectedValue c8TeamX2 c8ParsedW false :=
  calculateExpectedValue_pool_antitone c8ParsedW c8TeamX2 c8TeamY2
    (by norm_num [estimateWinProb, c8TeamX2, c8TeamY2, c8ParsedW, c8Parsed])
    (by norm_num [estimateWinProb, c8TeamX2, c8ParsedW, c8Parsed])
    (by norm_num [c8ParsedW, c8Parsed])
    (by norm_num [jsOrQ, c8ParsedW, c8Parsed])
    (by norm_num [jsOrQ, c8ParsedW, c8Parsed, c8TeamX2])
    (by norm_num [c8TeamX2, c8TeamY2])

/-! ## C6: loyalty of the expected-value team analysis -/

/-- **C6** — once aligned (`currentTeamId` truthy) with a team that still
appears among the fruit-bearing team stats, the EV analysis recommends that
very team whenever it still needs fruits — regardless of any other team's
EV — and recommends the best-EV team (switching) only when the current team
is blocked (`fruitsNeeded ≤ 0`; a team with no fruit never appears in the
stats at all, which is the other blocked case). -/
theorem analyzeTeams_loyalty (parsed : ParsedState) (ctid : String)
    (ct : TeamStat) (hne : ctid ≠ "")
    (hfind : findCurrentStat (sortByEVDesc (teamStatsFor parsed (some ctid)))
      (some ctid) = some ct) :
    (0 < parsed.fruitsToWin - ct.team.score →
      (analyzeTeams parsed (some ctid)).recommendedTeam = some ct.team ∧
      (analyzeTeams parsed (some ctid)).shouldPlay = true ∧
      ct.team.id = ctid) ∧
    (parsed.fruitsToWin - ct.team.score ≤ 0 →
      ∃ best restS,
        sortByEVDesc (teamStatsFor parsed (some ctid)) = best :: restS ∧
        (analyzeTeams parsed (some ctid)).recommendedTeam = some best.team) := by
  obtain ⟨best, restS, hL⟩ :
      ∃ b r, sortByEVDesc (teamStatsFor parsed (some ctid)) = b :: r := by
    rcases hE : sortByEVDesc (teamStatsFor parsed (some ctid)) with _ | ⟨b, r⟩
    · rw [hE] at hfind
      exact absurd hfind (by simp [findCurrentStat])
    · exact ⟨b, r, rfl⟩
  have hmem : ct ∈ sortByEVDesc (teamStatsFor parsed (some ctid)) :=
    List.mem_of_find?_eq_some hfind
  have hid : ct.team.id = ctid := by
    have hpred := List.find?_some hfind
    simp only [beq_iff_eq, Option.some.injEq] at hpred
    exact hpred.symm
  have hcf : ct.team.closestFruit.isSome = true := by
    unfold sortByEVDesc at hmem
    rw [List.mem_mergeSort] at hmem
    unfold teamStatsFor at hmem
    rw [List.mem_map] at hmem
    obtain ⟨t, ht, hteq⟩ := hmem
    rw [List.mem_filter] at ht
    rw [← hteq]
    exact ht.2
  have hie : ctid.isEmpty = false := by
    cases hie2 : ctid.isEmpty
    · rfl
    · exact absurd ((String.isEmpty_iff ctid).mp hie2) hne
  have hstr : (!(strTruthy (some ctid))) = false := by
    simp [strTruthy, hie]
  rw [hL] at hfind
  constructor
  · intro hneeds
    unfold analyzeTeams
    dsimp only
    rw [hL]
    dsimp only
    rw [hstr]
    rw [if_neg (by simp)]
    rw [hfind]
    dsimp only
    rw [if_pos ⟨hneeds, hcf⟩]
    exact ⟨rfl, rfl, hid⟩
  · intro hneeds
    refine ⟨best, restS, hL, ?_⟩
    unfold analyzeTeams
    dsimp only
    rw [hL]
    dsimp only
    rw [hstr]
    rw [if_neg (by simp)]
    rw [hfind]
    dsimp only
    rw [if_neg (by push_neg; intro h; exact absurd hneeds (by omega))]
    rw [if_pos (Or.inr hneeds)]

/-- Current team for the C6 witness: needs 2 more fruits (win prob 0.4). -/
def c6TeamA : TeamInfo :=
  { id := "a", score := 1, pool := 4, closestFruit := some ⟨⟨0, -1⟩, 1⟩ }

/-- Competing team for the C6 witness: needs 1 fruit (win prob 0.9),
with strictly higher raw EV. -/
def c6TeamB : TeamInfo :=
  { id := "b", score := 2, pool := 4, closestFruit := some ⟨⟨1, -1⟩, 1⟩ }

/-- Parsed state for the C6 witness. -/
def c6Parsed : ParsedState :=
  { active := true, round := 2, prizePool := 10, minBid := 1, countdown := none,
    fruitsToWin := 3, gridRadius := 3, head := ⟨0, 0⟩, snakeLength := 1,
    currentDirection := none, currentWinningTeam := none,
    teams := [c6TeamA, c6TeamB], validDirections := [.n],
    votes := fun _ => none, winner := none, raw := exRawEmpty,
    extensions := none, inExtensionWindow := none, initialMinBid := none }

/-- The current team's stat entry on the C6 witness inputs (EV 1 while the
competing team's EV is 1.8). -/
def c6StatA : TeamStat :=
  { team := c6TeamA, ev := 1, isCurrentTeam := true }

set_option maxHeartbeats 2000000 in
lemma c6_find_eval :
    findCurrentStat (sortByEVDesc (teamStatsFor c6Parsed (some "a")))
      (some "a") = some c6StatA := by
  simp +decide [findCurrentStat, sortByEVDesc, teamStatsFor,
    calculateExpectedValue, estimateWinProb, jsOrQ, c6Parsed, c6TeamA,
    c6TeamB, c6StatA, List.mergeSort]
  norm_num [List.merge, List.find?]
  rw [show (("a" == "b") : Bool) = false from by decide]

/-- Witness for C6: aligned with team `a` (EV 1), team `b` shows EV 1.8,
yet the analysis stays loyal to `a`. -/
theorem analyzeTeams_loyalty_witness :
    ((analyzeTeams c6Parsed (some "a")).recommendedTeam = some c6TeamA ∧
      (analyzeTeams c6Parsed (some "a")).shouldPlay = true) ∧
    calculateExpectedValue c6TeamA c6Parsed true <
      calculateExpectedValue c6TeamB c6Parsed false :=
  ⟨by
    have h := (analyzeTeams_loyalty c6Parsed "a" c6StatA (by decide)
      c6_find_eval).1 (by norm_num [c6Parsed, c6StatA, c6TeamA])
    exact ⟨h.1, h.2.1⟩,
   by norm_num [calculateExpectedValue, estimateWinProb, jsOrQ, c6Parsed,
     c6TeamA, c6TeamB]⟩

/-! ## Daemon decision loop (`daemon/autoplay.mjs`, mid-round variant) -/

/-- The persisted daemon counters (`state` in the source, written by
`saveDaemonState`). -/
structure DaemonCounters where
  currentTeam : Option String
  lastRound : ℤ
  gamesPlayed : ℕ
  votesPlaced : ℕ
  wins : ℕ
deriving DecidableEq

/-- The loop-local mutable variables of `runAutoplay` plus the persisted
counters. -/
structure LoopState where
  daemon : DaemonCounters
  inGame : Bool
  lastRound : ℤ
  currentTeam : Option String
  roundVote : Option VoteAction
  roundSpend : ℚ
  roundVoteCount : ℕ
deriving DecidableEq

/-- Settings consumed by the loop body. -/
structure Settings where
  pollIntervalMs : ℕ
  maxRoundBudgetPct : Option ℚ
deriving DecidableEq

/-- Observable side effects of one tick (logging/notification/hook calls). -/
inductive Event where
  | gameStart
  | gameEnd (winner : Option String) (didWin : Bool)
  | roundEnd
  | teamSwitch (prev : Option String) (next : String)
  | voteSubmitted (v : VoteAction)
  | gameEndedNoState
deriving DecidableEq

/-- The strategy capability surface used by the loop. -/
structure Strategy where
  computeVote : ParsedState → ℚ → StratState → VoteResult
  shouldCounterBid : ParsedState → ℚ → StratState → VoteAction → Option VoteAction

/-- The expected-value strategy as a `Strategy`. -/
def evStrategy (opts : EVOptions) : Strategy :=
  { computeVote := computeVote
    shouldCounterBid := shouldCounterBid opts }

/-- Reset of the per-round tracking variables. -/
def resetRoundTracking (ls : LoopState) : LoopState :=
  { ls with roundVote := none, roundSpend := 0, roundVoteCount := 0 }

/-- `trySubmitVote`: on success bump `votesPlaced`, persist team and round,
and report the vote (the caller then updates the round tracking, merged
here); on failure nothing changes. -/
def submitVoteStep (submitOk : Bool) (parsed : ParsedState) (v : VoteAction)
    (ls : LoopState) (evs : List Event) : LoopState × List Event :=
  if submitOk then
    ({ ls with
        daemon := { ls.daemon with
          votesPlaced := ls.daemon.votesPlaced + 1
          currentTeam := ls.currentTeam
          lastRound := parsed.round }
        roundVote := some v
        roundSpend := ls.roundSpend + v.amount
        roundVoteCount := ls.roundVoteCount + 1 },
     evs ++ [.voteSubmitted v])
  else (ls, evs)

/-- The `vote.team.id !== currentTeam` switch-and-notify step. -/
def switchTeamStep (team : TeamInfo) (ls : LoopState) (evs : List Event) :
    LoopState × List Event :=
  if some team.id ≠ ls.currentTeam then
    ({ ls with currentTeam := some team.id },
     evs ++ [.teamSwitch ls.currentTeam team.id])
  else (ls, evs)

/-- The adaptive sleep at the bottom of the loop body:
`roundVote ? Math.max(pollIntervalMs, 2000) : pollIntervalMs`. -/
def bottomInterval (settings : Settings) (ls : LoopState) : ℕ :=
  if ls.roundVote.isSome then max settings.pollIntervalMs 2000
  else settings.pollIntervalMs

/-- One iteration of the `runAutoplay` body after a successful parse:
game-start transition, authoritative game-end transition, inactive idle,
new-round vote computation, or same-round override monitoring under the
per-round budget cap. -/
def tickParsed (strat : Strategy) (settings : Settings) (balance : ℚ)
    (submitOk : Bool) (ls : LoopState) (parsed : ParsedState) :
    LoopState × List Event × ℕ :=
  let base := settings.pollIntervalMs
  let started := !ls.inGame && parsed.active
  let ls0 := if started then
      { resetRoundTracking ls with
          inGame := true
          currentTeam := none
          lastRound := -1 }
    else ls
  let evs0 : List Event := if started then [.gameStart] else []
  if !parsed.active && parsed.winner.isSome && ls0.inGame then
    let didWin := decide (ls0.currentTeam = parsed.winner)
    ({ resetRoundTracking ls0 with
        daemon := { ls0.daemon with
          gamesPlayed := ls0.daemon.gamesPlayed + 1
          wins := ls0.daemon.wins + (if didWin then 1 else 0) }
        inGame := false
        currentTeam := none
        lastRound := -1 },
     evs0 ++ [.gameEnd parsed.winner didWin], base)
  else if !parsed.active then
    (ls0, evs0, base)
  else if parsed.round ≠ ls0.lastRound then
    let evs1 := evs0 ++ (if 0 ≤ ls0.lastRound then [Event.roundEnd] else [])
    let ls1 := { resetRoundTracking ls0 with lastRound := parsed.round }
    match strat.computeVote parsed balance
      { currentTeam := ls1.currentTeam, roundSpend := ls1.roundSpend,
        roundVoteCount := ls1.roundVoteCount, roundBudgetRemaining := none } with
    | .null => (ls1, evs1, base)
    | .skip _ => (ls1, evs1, base)
    | .vote v =>
      let p1 := switchTeamStep v.team ls1 evs1
      let p2 := submitVoteStep submitOk parsed v p1.1 p1.2
      (p2.1, p2.2, base)
  else
    match ls0.roundVote with
    | none => (ls0, evs0, bottomInterval settings ls0)
    | some rv =>
      if parsed.currentDirection ≠ some rv.direction then
        let pct := settings.maxRoundBudgetPct.getD (1/5)
        let budgetRemaining := balance * pct - ls0.roundSpend
        if parsed.minBid ≤ balance ∧ parsed.minBid ≤ budgetRemaining then
          match strat.shouldCounterBid parsed balance
            { currentTeam := ls0.currentTeam, roundSpend := ls0.roundSpend,
              roundVoteCount := ls0.roundVoteCount,
              roundBudgetRemaining := some budgetRemaining } rv with
          | some counter =>
            let p1 := switchTeamStep counter.team ls0 evs0
            let p2 := submitVoteStep submitOk parsed counter p1.1 p1.2
            (p2.1, p2.2, bottomInterval settings p2.1)
          | none =>
            let ls1 := { ls0 with roundVote := none }
            (ls1, evs0, bottomInterval settings ls1)
        else (ls0, evs0, bottomInterval settings ls0)
      else (ls0, evs0, bottomInterval settings ls0)

/-- Inputs of one tick that come from outside the loop state. -/
structure TickInput where
  paused : Bool
  authed : Bool
  raw : Option RawGame
  balance : ℚ
  submitOk : Bool

/-- `rawState.error === 'AUTH_MISSING' || rawState.error === 'AUTH_EXPIRED'`. -/
def rawAuthError (raw : Option RawGame) : Bool :=
  match raw with
  | none => false
  | some gs =>
    match gs.error with
    | some .authMissing => true
    | some .authExpired => true
    | _ => false

/-- One full iteration of the `runAutoplay` loop body: pause check, auth
check, raw-error check, parse, then `tickParsed`. -/
def tick (strat : Strategy) (settings : Settings) (inp : TickInput)
    (ls : LoopState) : LoopState × List Event × ℕ :=
  if inp.paused then (ls, [], settings.pollIntervalMs)
  else if !inp.authed then (ls, [], 5000)
  else if rawAuthError inp.raw then (ls, [], 5000)
  else
    match parseGameState inp.raw with
    | none =>
      if ls.inGame then
        ({ ls with inGame := false }, [.gameEndedNoState], settings.pollIntervalMs)
      else (ls, [], settings.pollIntervalMs)
    | some parsed => tickParsed strat settings inp.balance inp.submitOk ls parsed

/-! ## C3: the end-of-game transition fires exactly once -/

lemma tickParsed_inactive_noop (strat : Strategy) (settings : Settings)
    (balance : ℚ) (submitOk : Bool) (ls : LoopState) (parsed : ParsedState)
    (hin : ls.inGame = false) (hact : parsed.active = false) :
    tickParsed strat settings balance submitOk ls parsed =
      (ls, [], settings.pollIntervalMs) := by
  unfold tickParsed
  simp [hin, hact]

lemma tickParsed_game_end (strat : Strategy) (settings : Settings)
    (balance : ℚ) (submitOk : Bool) (ls : LoopState) (parsed : ParsedState)
    (w : String) (hin : ls.inGame = true) (hinact : parsed.active = false)
    (hw : parsed.winner = some w) :
    tickParsed strat settings balance submitOk ls parsed =
      ({ resetRoundTracking ls with
          daemon := { ls.daemon with
            gamesPlayed := ls.daemon.gamesPlayed + 1
            wins := ls.daemon.wins +
              (if decide (ls.currentTeam = some w) then 1 else 0) }
          inGame := false
          currentTeam := none
          lastRound := -1 },
        [Event.gameEnd (some w) (decide (ls.currentTeam = some w))],
        settings.pollIntervalMs) := by
  unfold tickParsed
  simp [hin, hinact, hw]

/-- **C3** — an inactive snapshot with a winner arriving while in-game fires
the end-of-game transition exactly once: `gamesPlayed` is incremented by
one, `wins` is incremented iff the loop's `currentTeam` equals the winner,
the game-end notification/hook event is emitted, and the round bookkeeping
(`currentTeam`, `lastRound`, round vote/spend counters) is reset; any
further tick on an inactive snapshot (with or without a winner) from the
resulting state changes nothing and emits nothing. -/
theorem game_end_transition_once (strat : Strategy) (settings : Settings)
    (balance : ℚ) (submitOk : Bool) (ls : LoopState) (parsed : ParsedState)
    (w : String) (hin : ls.inGame = true) (hinact : parsed.active = false)
    (hw : parsed.winner = some w) :
    ((tickParsed strat settings balance submitOk ls parsed).1.daemon.gamesPlayed
        = ls.daemon.gamesPlayed + 1) ∧
    ((tickParsed strat settings balance submitOk ls parsed).1.daemon.wins
        = ls.daemon.wins + (if ls.currentTeam = some w then 1 else 0)) ∧
    ((tickParsed strat settings balance submitOk ls parsed).2.1
        = [Event.gameEnd (some w) (decide (ls.currentTeam = some w))]) ∧
    ((tickParsed strat settings balance submitOk ls parsed).1.inGame = false) ∧
    ((tickParsed strat settings balance submitOk ls parsed).1.currentTeam = none) ∧
    ((tickParsed strat settings balance submitOk ls parsed).1.lastRound = -1) ∧
    ((tickParsed strat settings balance submitOk ls parsed).1.roundVote = none) ∧
    ((tickParsed strat settings balance submitOk ls parsed).1.roundSpend = 0) ∧
    ((tickParsed strat settings balance submitOk ls parsed).1.roundVoteCount = 0) ∧
    (∀ (strat2 : Strategy) (settings2 : Settings) (balance2 : ℚ)
        (submitOk2 : Bool) (parsed2 : ParsedState),
      parsed2.active = false →
      tickParsed strat2 settings2 balance2 submitOk2
          (tickParsed strat settings balance submitOk ls parsed).1 parsed2 =
        ((tickParsed strat settings balance submitOk ls parsed).1, [],
          settings2.pollIntervalMs)) := by
  rw [tickParsed_game_end strat settings balance submitOk ls parsed w hin hinact hw]
  refine ⟨rfl, ?_, rfl, rfl, rfl, rfl, rfl, rfl, rfl, ?_⟩
  · by_cases hcw : ls.currentTeam = some w
    · simp [resetRoundTracking, hcw]
    · simp [resetRoundTracking, hcw]
  · intro strat2 settings2 balance2 submitOk2 parsed2 hact2
    exact tickParsed_inactive_noop strat2 settings2 balance2 submitOk2 _ parsed2
      rfl hact2

/-- Concrete in-game loop state for the C3 witness. -/
def c3LoopState : LoopState :=
  { daemon := { currentTeam := some "red", lastRound := 4, gamesPlayed := 2,
                votesPlaced := 9, wins := 1 }
    inGame := true
    lastRound := 5
    currentTeam := some "red"
    roundVote := none
    roundSpend := 1
    roundVoteCount := 1 }

/-- Concrete inactive snapshot with winner `red` for the C3 witness. -/
def c3Parsed : ParsedState :=
  { active := false, round := 5, prizePool := 10, minBid := 1, countdown := none,
    fruitsToWin := 3, gridRadius := 3, head := ⟨0, 0⟩, snakeLength := 1,
    currentDirection := none, currentWinningTeam := none, teams := [],
    validDirections := [], votes := fun _ => none, winner := some "red",
    raw := exRawEmpty, extensions := none, inExtensionWindow := none,
    initialMinBid := none }

/-- Settings used by the daemon witnesses. -/
def c3Settings : Settings :=
  { pollIntervalMs := 1000, maxRoundBudgetPct := none }

/-- Witness for C3 at a concrete end-of-game tick (the agent's team wins:
`gamesPlayed` 2 → 3, `wins` 1 → 2). -/
theorem game_end_transition_once_witness :
    ((tickParsed (evStrategy exOpts) c3Settings 20 true c3LoopState c3Parsed).1.daemon.gamesPlayed
        = c3LoopState.daemon.gamesPlayed + 1) ∧
    ((tickParsed (evStrategy exOpts) c3Settings 20 true c3LoopState c3Parsed).1.daemon.wins
        = c3LoopState.daemon.wins + 1) ∧
    ((tickParsed (evStrategy exOpts) c3Settings 20 true c3LoopState c3Parsed).1.inGame
        = false) := by
  have h := game_end_transition_once (evStrategy exOpts) c3Settings 20 true
    c3LoopState c3Parsed "red" rfl rfl rfl
  refine ⟨h.1, ?_, h.2.2.2.1⟩
  rw [h.2.1]
  norm_num [c3LoopState]

/-! ## C1: the per-round budget cap blocks counter-bidding -/

/-- **C1** — on an override tick where `roundSpend + minBid` exceeds
`balance × maxRoundBudgetPct`, the loop leaves its state untouched, submits
nothing (no events at all), and sleeps the monitoring interval; moreover the
expected-value `shouldCounterBid`, given the budget remainder the daemon
would pass, returns `null` on its own budget guard. -/
theorem counterBid_budget_guard (strat : Strategy) (settings : Settings)
    (balance : ℚ) (submitOk : Bool) (ls : LoopState) (parsed : ParsedState)
    (rv : VoteAction) (opts : EVOptions)
    (hin : ls.inGame = true) (hact : parsed.active = true)
    (hround : parsed.round = ls.lastRound) (hrv : ls.roundVote = some rv)
    (hov : parsed.currentDirection ≠ some rv.direction)
    (hbudget : balance * settings.maxRoundBudgetPct.getD (1/5) <
      ls.roundSpend + parsed.minBid) :
    tickParsed strat settings balance submitOk ls parsed =
      (ls, [], max settings.pollIntervalMs 2000) ∧
    shouldCounterBid opts parsed balance
      { currentTeam := ls.currentTeam, roundSpend := ls.roundSpend,
        roundVoteCount := ls.roundVoteCount,
        roundBudgetRemaining :=
          some (balance * settings.maxRoundBudgetPct.getD (1/5) - ls.roundSpend) }
      rv = none := by
  constructor
  · have hng : ¬(parsed.minBid ≤ balance ∧ parsed.minBid ≤
        balance * settings.maxRoundBudgetPct.getD (1/5) - ls.roundSpend) := by
      rintro ⟨-, h2⟩
      linarith
    unfold tickParsed
    simp [hin, hact, hround, hrv, hov, hng, bottomInterval]
    intro h1 h2
    simp only [one_div] at hbudget
    linarith
  · unfold shouldCounterBid
    split
    · rfl
    · split
      · rfl
      · split
        · rfl
        · rename_i h3
          exfalso
          apply h3
          refine decide_eq_true ?_
          dsimp only [Option.getD] at hbudget ⊢
          linarith

/-- In-game loop state mid-round with an active vote, for the C1 witness
(round spend 3/2 against a budget of 10 × 0.2 = 2). -/
def c1LoopState : LoopState :=
  { daemon := { currentTeam := some "a", lastRound := 5, gamesPlayed := 0,
                votesPlaced := 3, wins := 0 }
    inGame := true
    lastRound := 5
    currentTeam := some "a"
    roundVote := some exOurVote
    roundSpend := 3/2
    roundVoteCount := 2 }

/-- Active snapshot whose winning direction overrides the agent's vote,
for the C1 witness. -/
def c1Parsed : ParsedState :=
  { active := true, round := 5, prizePool := 10, minBid := 1, countdown := none,
    fruitsToWin := 3, gridRadius := 3, head := ⟨0, 0⟩, snakeLength := 1,
    currentDirection := some .s, currentWinningTeam := none, teams := [exTeamA],
    validDirections := [.n], votes := fun _ => none, winner := none,
    raw := exRawEmpty, extensions := none, inExtensionWindow := none,
    initialMinBid := none }

/-- Witness for C1: overridden, over budget (3/2 + 1 > 2) — the tick leaves
everything unchanged with no events, and `shouldCounterBid` returns null. -/
theorem counterBid_budget_guard_witness :
    tickParsed (evStrategy exOpts) c3Settings 10 true c1LoopState c1Parsed =
      (c1LoopState, [], max c3Settings.pollIntervalMs 2000) ∧
    shouldCounterBid exOpts c1Parsed 10
      { currentTeam := c1LoopState.currentTeam
        roundSpend := c1LoopState.roundSpend
        roundVoteCount := c1LoopState.roundVoteCount
        roundBudgetRemaining :=
          some (10 * c3Settings.maxRoundBudgetPct.getD (1/5) -
            c1LoopState.roundSpend) }
      exOurVote = none :=
  counterBid_budget_guard (evStrategy exOpts) c3Settings 10 true c1LoopState
    c1Parsed exOurVote exOpts rfl rfl rfl rfl (by decide)
    (by norm_num [c3Settings, c1LoopState, c1Parsed])

/-! ## C9: adaptive poll interval -/

lemma bottomInterval_ge (settings : Settings) (ls : LoopState) :
    settings.pollIntervalMs ≤ bottomInterval settings ls := by
  unfold bottomInterval
  split
  · exact le_max_left _ _
  · exact le_refl _

lemma bottomInterval_of_isSome (settings : Settings) (ls : LoopState)
    (h : ls.roundVote.isSome = true) :
    bottomInterval settings ls = max settings.pollIntervalMs 2000 := by
  unfold bottomInterval
  rw [if_pos h]

/-- **C9** — the sleep chosen by the loop body is the configured base
interval on every tick that is not monitoring a submitted vote
(`roundVote` empty), and on monitoring ticks (same round, vote pending) it
is the adaptive `roundVote ? max(pollIntervalMs, 2000) : pollIntervalMs`
of the post-tick state: never faster than the base interval, and exactly
the fixed 2000 ms whenever a vote is still being monitored and the base
interval does not already exceed 2 s. -/
theorem poll_interval_adaptive (strat : Strategy) (settings : Settings)
    (balance : ℚ) (submitOk : Bool) (ls : LoopState) (parsed : ParsedState) :
    (ls.roundVote = none →
      (tickParsed strat settings balance submitOk ls parsed).2.2 =
        settings.pollIntervalMs) ∧
    (∀ rv, ls.inGame = true → parsed.active = true →
      parsed.round = ls.lastRound → ls.roundVote = some rv →
      ((tickParsed strat settings balance submitOk ls parsed).2.2 =
        bottomInterval settings
          (tickParsed strat settings balance submitOk ls parsed).1) ∧
      settings.pollIntervalMs ≤
        (tickParsed strat settings balance submitOk ls parsed).2.2 ∧
      ((tickParsed strat settings balance submitOk ls parsed).1.roundVote.isSome = true →
        settings.pollIntervalMs ≤ 2000 →
        (tickParsed strat settings balance submitOk ls parsed).2.2 = 2000)) := by
  constructor
  · intro hnone
    unfold tickParsed
    dsimp only
    repeat' split
    all_goals
      simp_all [bottomInterval, submitVoteStep, switchTeamStep,
        resetRoundTracking]
  · intro rv hin hact hround hrv
    have hkey : (tickParsed strat settings balance submitOk ls parsed).2.2 =
        bottomInterval settings
          (tickParsed strat settings balance submitOk ls parsed).1 := by
      unfold tickParsed
      dsimp only
      simp only [hin, hact, hround, hrv, Bool.not_true, Bool.false_and,
        Bool.and_self, ne_eq, not_true_eq_false, if_false, Bool.false_eq_true]
      repeat' split
      all_goals simp_all [bottomInterval]
    refine ⟨hkey, ?_, ?_⟩
    · rw [hkey]
      exact bottomInterval_ge settings _
    · intro hsome hble
      rw [hkey, bottomInterval_of_isSome settings _ hsome]
      omega

/-- c1LoopState without a pending vote (idle tick) for the C9 witness. -/
def c9IdleState : LoopState :=
  { c1LoopState with roundVote := none }

lemma c9_tick_eval :
    tickParsed (evStrategy exOpts) c3Settings 10 true c1LoopState c1Parsed =
      (c1LoopState, [], max 1000 2000) := by
  norm_num [tickParsed, bottomInterval, c1LoopState, c1Parsed, c3Settings,
    exOurVote, exTeamA]

/-- Witness for C9: an idle tick sleeps the base 1000 ms, and a monitored
tick (override present, budget blocked, vote still pending) sleeps
`max(1000, 2000) = 2000` ms. -/
theorem poll_interval_adaptive_witness :
    ((tickParsed (evStrategy exOpts) c3Settings 10 true c9IdleState c1Parsed).2.2 =
      c3Settings.pollIntervalMs) ∧
    ((tickParsed (evStrategy exOpts) c3Settings 10 true c1LoopState c1Parsed).2.2 =
      2000) := by
  constructor
  · exact (poll_interval_adaptive (evStrategy exOpts) c3Settings 10 true
      c9IdleState c1Parsed).1 rfl
  · exact ((poll_interval_adaptive (evStrategy exOpts) c3Settings 10 true
      c1LoopState c1Parsed).2 exOurVote rfl rfl rfl rfl).2.2
      (by rw [c9_tick_eval]; rfl) (by norm_num [c3Settings])

/-- The parsed state produced from `c5Raw` (for the C5 witness). -/
def c5ParsedResult : ParsedState :=
  { active := false, round := 7, prizePool := 10, minBid := 1, countdown := none,
    fruitsToWin := 3, gridRadius := 3, head := ⟨0, 0⟩, snakeLength := 1,
    currentDirection := none, currentWinningTeam := none, teams := [],
    validDirections := getValidDirections c5Raw, votes := c5Raw.votes,
    winner := some "red", raw := c5Raw, extensions := none,
    inExtensionWindow := none, initialMinBid := none }

lemma c5_parse_eval : parseGameState (some c5Raw) = some c5ParsedResult := rfl

/-- Witness for the amended C5 at the concrete inactive-with-head snapshot:
its parse is non-null (the null conditions are indeed absent) and preserves
the inactive flag. -/
theorem parseGameState_none_iff_witness :
    c5ParsedResult.active = c5Raw.gameActive ∧
    ¬(c5Raw.error.isSome ∨ rawHead c5Raw = none) :=
  ⟨parseGameState_none_iff.2.2 c5Raw c5ParsedResult c5_parse_eval, by decide⟩
